import Mathlib

/-!
Verification development for the OLX valuation/ranking engine in bot.py:
feedback correction, TIV/SPOT/RAV scoring models, category dispatch,
fetch/dedup pipeline, classifier retry loop, and the monitoring cycle.

Modelling conventions:
- Python float arithmetic is idealized as exact rational arithmetic (ℚ);
  Python round() (round half to even on our exact values) is pyRound.
- Python dict-based JSON results are structures with Option-typed fields;
  a missing key is none, dict.get with a default is Option.getD.
- Python truthiness of optional strings/numbers: None and the empty string
  and 0 are falsy.
- SQL aggregates over an empty row set yield NULL (none); adding two such
  NULL values in Python raises TypeError, modelled with Except.
- Titles are compared after Python str.lower(); the engine functions take
  the already lowercased title as their title argument.
-/

/-- Python round() on the exact-rational idealization of floats:
round half to even. -/
def pyRound (q : ℚ) : ℤ :=
  let f : ℤ := ⌊q⌋
  let r : ℚ := q - (f : ℚ)
  if r < 1/2 then f
  else if 1/2 < r then f + 1
  else if f % 2 = 0 then f else f + 1

/-- pyRound is the identity on integral values. -/
theorem pyRound_intCast (n : ℤ) : pyRound ((n : ℚ)) = n := by
  have h : ((n : ℚ)) - ((⌊(n : ℚ)⌋ : ℤ) : ℚ) = 0 := by
    rw [Int.floor_intCast]; ring
  simp only [pyRound, h]
  norm_num

/-- Evaluation helper: pyRound of an expression equal to an integer. -/
theorem pyRound_eq_intCast (q : ℚ) (n : ℤ) (h : q = (n : ℚ)) : pyRound q = n := by
  rw [h, pyRound_intCast]

/-- Python truthiness of an optional string (None and the empty string are
falsy). -/
def pyTruthyStr : Option String → Bool
  | none => false
  | some s => !(s == "")

/-- Python truthiness of an optional number (None and 0 are falsy). -/
def pyTruthyNum : Option ℚ → Bool
  | none => false
  | some q => !(q == 0)

/-- Substring test on char lists: does pat occur contiguously in s?
Models the Python `pat in s` string containment test. -/
def charListHasSub (pat : List Char) : List Char → Bool
  | [] => pat.isEmpty
  | c :: rest => pat.isPrefixOf (c :: rest) || charListHasSub pat rest

/-- Python substring containment `pat in s` on String. -/
def strContainsSub (s pat : String) : Bool :=
  charListHasSub pat.data s.data

example : strContainsSub "золото лом 585 проба" "лом 585" = true := by decide
example : strContainsSub "золото" "срібло" = false := by decide

/-! EconomicConfig constants (bot.py class EconomicConfig). -/

/-- Search queries for collectible/valuable items (OLX_SEARCH_QUERIES). -/
def OLX_SEARCH_QUERIES : List String :=
  ["чоловічий годинник rolex", "верстат чпу промисловий", "монета 5 рублів золото",
   "царське срібло", "ікона срібло", "зварювальний апарат kemppi"]

/-- Search queries for scrap/bullion (OLX_SCRAP_QUERIES). -/
def OLX_SCRAP_QUERIES : List String :=
  ["золото лом 585", "срібло лом 925", "золотий злиток"]

/-- Minimum price threshold in UAH (OLX_PRICE_FILTER). -/
def OLX_PRICE_FILTER : ℤ := 20000

/-- Resale transaction fee percent (TRANSACTION_FEES_PERCENT). -/
def TRANSACTION_FEES_PERCENT : ℚ := 10

/-- Minimum profit margin percent for a relevant deal
(MIN_PROFIT_MARGIN_PERCENT). -/
def MIN_PROFIT_MARGIN_PERCENT : ℚ := 20

/-- Yearly depreciation rate of machinery (MACHINERY_DEPRECIATION_RATE). -/
def MACHINERY_DEPRECIATION_RATE : ℚ := 0.05

/-- Weight of the condition rating in TIV (MACHINERY_CONDITION_WEIGHT). -/
def MACHINERY_CONDITION_WEIGHT : ℚ := 0.4

/-- Penalty rate per operating hour (MACHINERY_HOURS_PENALTY_RATE). -/
def MACHINERY_HOURS_PENALTY_RATE : ℚ := 0.000005

/-- Brand prestige multipliers, in dict insertion order
(PRESTIGE_MULTIPLIERS). -/
def PRESTIGE_MULTIPLIERS : List (String × ℚ) :=
  [("rolex", 1.5), ("patek philippe", 1.8), ("omega", 1.3)]

/-- Feedback correction magnitude k (FEEDBACK_CORRECTION_MULTIPLIER). -/
def FEEDBACK_CORRECTION_MULTIPLIER : ℚ := 0.1

/-- Fixed per-gram spot prices (SPOT_PRICES). -/
structure SpotPrices where
  GOLD_585_UAH_PER_GRAM : ℚ
  SILVER_925_UAH_PER_GRAM : ℚ
deriving DecidableEq, Repr

/-- Default simulated spot prices of bot.py. -/
def SPOT_PRICES_DEFAULT : SpotPrices :=
  { GOLD_585_UAH_PER_GRAM := 2850, SILVER_925_UAH_PER_GRAM := 48.5 }

/-! Feedback correction factor (_get_feedback_correction_factor).
The vote set for one listing id is the list of is_like flags of the
matching user_feedback rows. -/

/-- SQL SUM(CASE WHEN is_like = TRUE THEN 1 ELSE 0 END) over the rows for
one listing: NULL (none) when no row matches. -/
def sqlSumLikes (votes : List Bool) : Option ℤ :=
  match votes with
  | [] => none
  | _ => some (votes.countP (fun b => b) : ℕ)

/-- SQL SUM(CASE WHEN is_like = FALSE THEN 1 ELSE 0 END) over the rows for
one listing: NULL (none) when no row matches. -/
def sqlSumDislikes (votes : List Bool) : Option ℤ :=
  match votes with
  | [] => none
  | _ => some (votes.countP (fun b => !b) : ℕ)

/-- Error message of the Python addition of two NULL aggregates. -/
def noneAddErrMsg : String :=
  "TypeError: unsupported operand type for +: NoneType and NoneType"

/-- Feedback correction factor for one listing id, translated from
_get_feedback_correction_factor. The guard evaluates
record likes + record dislikes first; with no votes both SQL sums are
NULL/None and the Python addition raises, so the neutral return 1.0 at the
end of the function is never reached for a vote-less listing. -/
def get_feedback_correction_factor (votes : List Bool) : Except String ℚ :=
  match sqlSumLikes votes, sqlSumDislikes votes with
  | some likesSum, some dislikesSum =>
    if likesSum + dislikesSum > 0 then
      let likes : ℤ := likesSum
      let dislikes : ℤ := dislikesSum
      let total_feedback : ℤ := likes + dislikes
      let score : ℚ := ((likes : ℚ) - (dislikes : ℚ)) / (total_feedback : ℚ)
      Except.ok (1 + score * FEEDBACK_CORRECTION_MULTIPLIER)
    else Except.ok 1
  | _, _ => Except.error noneAddErrMsg

/-- C1: the spec says the correction factor is the neutral 1.0 when the
listing has no recorded votes; on the code, the SQL sums of a vote-less
listing are both NULL and the guard adds them before any None-check, so
the call raises a TypeError instead of returning 1.0. The neutral return
at the end of the function is unreachable for the no-vote case, although
the inline comment of the source documents it as the intended result. -/
theorem get_feedback_correction_factor_no_votes_raises :
    get_feedback_correction_factor [] = Except.error noneAddErrMsg := rfl

/-! Classifier result (the analysis_schema JSON of analyze_olx_item) and
the decision envelope. -/

/-- Nested machinery_details object of the vision schema. All fields are
optional in the returned JSON. -/
structure MachineryDetails where
  manufacturer : Option String := none
  model : Option String := none
  year_of_manufacture : Option ℤ := none
  operating_hours : Option ℚ := none
  condition_rating : Option ℚ := none
deriving DecidableEq, Repr

/-- Nested watch_details object of the vision schema. -/
structure WatchDetails where
  brand : Option String := none
  model : Option String := none
  condition_rating : Option ℚ := none
  authenticity_risk_percent : Option ℚ := none
deriving DecidableEq, Repr

/-- Structured vision result; the empty dict (vision unavailable) is the
instance with every field none. -/
structure AiVision where
  is_correct_type : Option Bool := none
  refined_keywords : Option (List String) := none
  ai_rarity_score : Option ℚ := none
  estimated_weight : Option ℚ := none
  watch_details : Option WatchDetails := none
  machinery_details : Option MachineryDetails := none
deriving DecidableEq, Repr

/-- Category tag of a decision envelope. -/
inductive ModelTag where
  | machinery
  | spot
  | collectible
  | rejected
  | analysisError
deriving DecidableEq, Repr

/-- Decision envelope: the engine result dict. Fields that a given model
does not write are none (the Python dict simply lacks the key). Display
strings (deal_assessment) and the simulated liquidity snapshot are
omitted: they are formatting-only. -/
structure Envelope where
  is_relevant : Bool
  modelTag : ModelTag
  estimated_value : Option ℤ := none
  potential_profit_uah : Option ℤ := none
  feedback_multiplier : Option ℚ := none
  estimated_weight_g : Option ℚ := none
  spot_price_per_gram : Option ℚ := none
  calculated_spot_value : Option ℤ := none
  premium_discount_percent : Option ℚ := none
deriving DecidableEq, Repr

/-- Shared profit-percent computation of the TIV and RAV models:
(profit / olx_price) * 100 if olx_price > 0 else 0. -/
def profitPercent (profit olxPrice : ℤ) : ℚ :=
  if olxPrice > 0 then ((profit : ℚ) / (olxPrice : ℚ)) * 100 else 0

/-- First matching brand multiplier by substring search in the lowercased
title, in dict order; 1.0 when no brand matches (_analyze_collectible). -/
def prestige_multiplier (titleLower : String) : ℚ :=
  match PRESTIGE_MULTIPLIERS.find? (fun bm => strContainsSub titleLower bm.1) with
  | some bm => bm.2
  | none => 1

/-- TIV machinery analysis (_analyze_machinery). The average sale price
comes from the simulated external auction lookup and the feedback
multiplier from the feedback store; both are passed in as the values the
awaited calls returned. -/
def analyze_machinery (currentYear : ℤ) (avg_sale_price feedback_multiplier : ℚ)
    (olxPrice : ℤ) (ai : AiVision) : Envelope :=
  let md := ai.machinery_details.getD {}
  let year := md.year_of_manufacture.getD (currentYear - 5)
  let condition := md.condition_rating.getD 5
  let hours := md.operating_hours.getD 3000
  let age : ℤ := max 0 (currentYear - year)
  let depreciation_factor : ℚ := min 0.9 ((age : ℚ) * MACHINERY_DEPRECIATION_RATE)
  let value_after_age : ℚ := avg_sale_price * (1 - depreciation_factor)
  let condition_multiplier : ℚ :=
    (condition / 10) * MACHINERY_CONDITION_WEIGHT + (1 - MACHINERY_CONDITION_WEIGHT)
  let hours_penalty_uah : ℚ := hours * MACHINERY_HOURS_PENALTY_RATE * avg_sale_price
  let tiv_value_raw : ℤ := pyRound (value_after_age * condition_multiplier - hours_penalty_uah)
  let tiv_value : ℤ := pyRound ((tiv_value_raw : ℚ) * feedback_multiplier)
  let tiv_value : ℤ := max OLX_PRICE_FILTER tiv_value
  let potential_profit_uah : ℤ :=
    pyRound ((tiv_value : ℚ) - (olxPrice : ℚ) - ((olxPrice : ℚ) * TRANSACTION_FEES_PERCENT / 100))
  let potential_profit_percent : ℚ := profitPercent potential_profit_uah olxPrice
  let is_relevant : Bool := decide (potential_profit_percent > MIN_PROFIT_MARGIN_PERCENT)
  { is_relevant := is_relevant, modelTag := ModelTag.machinery,
    estimated_value := some tiv_value,
    potential_profit_uah := some potential_profit_uah,
    feedback_multiplier := some feedback_multiplier }

/-- Raw estimated metal weight: estimated_weight from the AI result with
the simulated default of 50 grams (_analyze_spot). -/
def estimated_weight_raw (ai : AiVision) : ℚ :=
  ai.estimated_weight.getD 50

/-- Metal selection of _analyze_spot: gold iff the refined keyword list
contains one of the two gold markers, silver 925 otherwise. -/
def spotPricePerGramOf (ai : AiVision) (sp : SpotPrices) : ℚ :=
  if (ai.refined_keywords.getD []).contains "золото"
      || (ai.refined_keywords.getD []).contains "585" then
    sp.GOLD_585_UAH_PER_GRAM
  else
    sp.SILVER_925_UAH_PER_GRAM

/-- Naive implied spot value weight times per-gram price (_analyze_spot). -/
def implied_spot_value (ai : AiVision) (sp : SpotPrices) : ℚ :=
  estimated_weight_raw ai * spotPricePerGramOf ai sp

/-- De-bias heuristic of _analyze_spot: when the listing price exceeds 5
times the naive implied spot value, the adjusted weight is
max(1, raw weight / 10), else the raw weight. -/
def estimated_weight_g (olxPrice : ℤ) (ai : AiVision) (sp : SpotPrices) : ℚ :=
  if (olxPrice : ℚ) > implied_spot_value ai sp * 5 then
    max 1 (estimated_weight_raw ai / 10)
  else
    estimated_weight_raw ai

/-- SPOT scrap/bullion analysis (_analyze_spot). It is synchronous in the
source: no feedback store query, and the result dict carries no
feedback_multiplier key. -/
def analyze_spot (olxPrice : ℤ) (ai : AiVision) (sp : SpotPrices) : Envelope :=
  let spot_price_per_gram := spotPricePerGramOf ai sp
  let weight := estimated_weight_g olxPrice ai sp
  let calculated_spot_value : ℤ := pyRound (weight * spot_price_per_gram)
  let premium_discount_percent : ℚ :=
    if calculated_spot_value > 0 then
      (((olxPrice : ℚ) - (calculated_spot_value : ℚ)) / (calculated_spot_value : ℚ)) * 100
    else 100
  let is_relevant : Bool :=
    decide (premium_discount_percent < -1 * MIN_PROFIT_MARGIN_PERCENT)
  { is_relevant := is_relevant, modelTag := ModelTag.spot,
    estimated_weight_g := some weight,
    spot_price_per_gram := some spot_price_per_gram,
    calculated_spot_value := some calculated_spot_value,
    premium_discount_percent := some premium_discount_percent }

/-- RAV collectible analysis (_analyze_collectible). external rarity and
average auction price come from the simulated lookup, the feedback
multiplier from the feedback store. -/
def analyze_collectible (external_rarity avg_auction_price feedback_multiplier : ℚ)
    (titleLower : String) (olxPrice : ℤ) (ai : AiVision) : Envelope :=
  let ai_rarity := ai.ai_rarity_score.getD external_rarity
  let wd := ai.watch_details.getD {}
  let authenticity_risk := wd.authenticity_risk_percent.getD 0
  let condition_rating := wd.condition_rating.getD 8
  let rarity_factor : ℚ := ai_rarity / 100
  let condition_factor : ℚ := condition_rating / 10
  let authenticity_penalty : ℚ := 1 - authenticity_risk / 100
  let pm : ℚ := prestige_multiplier titleLower
  let rav_value_raw : ℤ :=
    pyRound (avg_auction_price * rarity_factor * condition_factor * authenticity_penalty * pm)
  let rav_value : ℤ := pyRound ((rav_value_raw : ℚ) * feedback_multiplier)
  let potential_profit_uah : ℤ :=
    pyRound ((rav_value : ℚ) - (olxPrice : ℚ) - ((rav_value : ℚ) * TRANSACTION_FEES_PERCENT / 100))
  let potential_profit_percent : ℚ := profitPercent potential_profit_uah olxPrice
  let is_relevant : Bool := decide (potential_profit_percent > MIN_PROFIT_MARGIN_PERCENT)
  { is_relevant := is_relevant, modelTag := ModelTag.collectible,
    estimated_value := some rav_value,
    potential_profit_uah := some potential_profit_uah,
    feedback_multiplier := some feedback_multiplier }

/-! Category dispatch (analyze_olx_item). -/

/-- Machinery title vocabulary of analyze_olx_item. -/
def MACHINERY_TITLE_KEYWORDS : List String :=
  ["верстат", "чпу", "прес", "інструмент"]

/-- Substring match of the lowercased title against the machinery
vocabulary. -/
def is_machinery_title (titleLower : String) : Bool :=
  MACHINERY_TITLE_KEYWORDS.any (fun w => strContainsSub titleLower w)

/-- Substring match of the lowercased title against the scrap/bullion
queries. -/
def is_scrap_or_bullion_title (titleLower : String) : Bool :=
  OLX_SCRAP_QUERIES.any (fun w => strContainsSub titleLower w)

/-- Truthiness of the nested manufacturer field that rule 2 of the
dispatch actually tests. -/
def manufacturerTruthy (ai : AiVision) : Bool :=
  pyTruthyStr (ai.machinery_details.getD {}).manufacturer

/-- Dispatch target of analyze_olx_item. -/
inductive Route where
  | rejected
  | machinery
  | spot
  | collectible
deriving DecidableEq, Repr

/-- Category dispatch of analyze_olx_item, in source order: rejection by
the classifier first, then machinery, then spot, then collectible. -/
def analyze_olx_item_route (titleLower : String) (ai : AiVision) : Route :=
  if (ai.is_correct_type.getD true) = false then Route.rejected
  else if is_machinery_title titleLower || manufacturerTruthy ai then Route.machinery
  else if is_scrap_or_bullion_title titleLower || pyTruthyNum ai.estimated_weight then Route.spot
  else Route.collectible

/-- Envelope returned on classifier rejection. -/
def rejectedEnvelope : Envelope :=
  { is_relevant := false, modelTag := ModelTag.rejected }

/-- Full analysis of one listing (analyze_olx_item): dispatch and scoring. -/
def analyze_olx_item (currentYear : ℤ)
    (external_rarity avg_price feedback_multiplier : ℚ)
    (titleLower : String) (olxPrice : ℤ) (ai : AiVision) (sp : SpotPrices) : Envelope :=
  match analyze_olx_item_route titleLower ai with
  | Route.rejected => rejectedEnvelope
  | Route.machinery => analyze_machinery currentYear avg_price feedback_multiplier olxPrice ai
  | Route.spot => analyze_spot olxPrice ai sp
  | Route.collectible =>
      analyze_collectible external_rarity avg_price feedback_multiplier titleLower olxPrice ai

/-- Feedback indicator shown by send_olx_post:
ai_result.get feedback_multiplier with default 1.0. -/
def displayedFeedbackMultiplier (e : Envelope) : ℚ :=
  e.feedback_multiplier.getD 1

/-- C9: the spot model is the only scoring model that never consults the
feedback store: its signature takes no vote data, its envelope carries no
feedback_multiplier field (none), and the publisher therefore renders the
neutral default 1.0 for every spot-classified listing, whatever votes the
store holds. -/
theorem analyze_spot_feedback_neutral (p : ℤ) (ai : AiVision) (sp : SpotPrices) :
    (analyze_spot p ai sp).feedback_multiplier = none
    ∧ displayedFeedbackMultiplier (analyze_spot p ai sp) = 1 :=
  ⟨rfl, rfl⟩

/-- C10: with a listing price of 0, the guarded profit-percent computation
of both the TIV and the RAV model returns 0 instead of dividing, and both
models assess the listing as not relevant since 0 does not exceed the
20 percent minimum margin. -/
theorem zero_price_guard (currentYear : ℤ) (er ap fm : ℚ) (t : String) (ai : AiVision) :
    profitPercent ((analyze_machinery currentYear ap fm 0 ai).potential_profit_uah.getD 0) 0 = 0
    ∧ (analyze_machinery currentYear ap fm 0 ai).is_relevant = false
    ∧ profitPercent ((analyze_collectible er ap fm t 0 ai).potential_profit_uah.getD 0) 0 = 0
    ∧ (analyze_collectible er ap fm t 0 ai).is_relevant = false :=
  ⟨rfl, rfl, rfl, rfl⟩

/-- C2 (amended): profit percent and the relevance threshold of the RAV
collectible model are computed exactly as in the TIV machinery model, but
the potential profit differs: the machinery model charges the transaction
fee on the listing price while the collectible model charges it on the
estimated value. -/
theorem collectible_profit_fee_base (currentYear : ℤ) (er ap fm : ℚ)
    (t : String) (p : ℤ) (ai : AiVision) :
    (analyze_collectible er ap fm t p ai).potential_profit_uah =
      some (pyRound (((analyze_collectible er ap fm t p ai).estimated_value.getD 0 : ℚ) - (p : ℚ)
        - (((analyze_collectible er ap fm t p ai).estimated_value.getD 0 : ℚ)
            * TRANSACTION_FEES_PERCENT / 100)))
    ∧ (analyze_machinery currentYear ap fm p ai).potential_profit_uah =
      some (pyRound (((analyze_machinery currentYear ap fm p ai).estimated_value.getD 0 : ℚ) - (p : ℚ)
        - ((p : ℚ) * TRANSACTION_FEES_PERCENT / 100)))
    ∧ (analyze_collectible er ap fm t p ai).is_relevant =
      decide (profitPercent ((analyze_collectible er ap fm t p ai).potential_profit_uah.getD 0) p
        > MIN_PROFIT_MARGIN_PERCENT)
    ∧ (analyze_machinery currentYear ap fm p ai).is_relevant =
      decide (profitPercent ((analyze_machinery currentYear ap fm p ai).potential_profit_uah.getD 0) p
        > MIN_PROFIT_MARGIN_PERCENT) :=
  ⟨rfl, rfl, rfl, rfl⟩

/-- Concrete classifier result used for the C2 counterexample: rarity 100,
condition 10, authenticity risk 0. -/
def ai_c2 : AiVision :=
  { is_correct_type := some true, ai_rarity_score := some 100,
    watch_details := some { condition_rating := some 10, authenticity_risk_percent := some 0 } }

/-- C2 (counterexample): with average auction price 100000, neutral
feedback, no brand in the title and listing price 50000, the collectible
value is 100000 but the computed potential profit is 40000, while the
formula of the claim (fee charged on the listing price, as the machinery
model does) yields 45000. -/
theorem collectible_profit_counterexample :
    (analyze_collectible 50 100000 1 "годинник" 50000 ai_c2).estimated_value = some 100000
    ∧ (analyze_collectible 50 100000 1 "годинник" 50000 ai_c2).potential_profit_uah = some 40000
    ∧ pyRound ((100000 : ℚ) - (50000 : ℚ) - ((50000 : ℚ) * TRANSACTION_FEES_PERCENT / 100)) = 45000
    ∧ (40000 : ℤ) ≠ 45000 := by
  have hpm : prestige_multiplier "годинник" = 1 := rfl
  have h1 : pyRound ((100000 : ℚ) * ((100 : ℚ) / 100) * ((10 : ℚ) / 10)
      * (1 - (0 : ℚ) / 100) * prestige_multiplier "годинник") = 100000 :=
    pyRound_eq_intCast _ _ (by rw [hpm]; norm_num)
  have h2 : pyRound (((100000 : ℤ) : ℚ) * 1) = 100000 :=
    pyRound_eq_intCast _ _ (by norm_num)
  have h3 : pyRound (((100000 : ℤ) : ℚ) - ((50000 : ℤ) : ℚ) - ((100000 : ℤ) : ℚ) * 10 / 100) = 40000 :=
    pyRound_eq_intCast _ _ (by push_cast; norm_num)
  have h4 : pyRound ((100000 : ℚ) - (50000 : ℚ) - ((50000 : ℚ) * 10 / 100)) = 45000 :=
    pyRound_eq_intCast _ _ (by norm_num)
  refine ⟨?_, ?_, ?_, by decide⟩
  · simp only [analyze_collectible, ai_c2, Option.getD_some, TRANSACTION_FEES_PERCENT]
    rw [h1, h2]
  · simp only [analyze_collectible, ai_c2, Option.getD_some, TRANSACTION_FEES_PERCENT]
    rw [h1, h2, h3]
  · simp only [TRANSACTION_FEES_PERCENT]
    rw [h4]

/-- C3 (amended): dispatch is first-match-wins in source order. A false
is_plausible flag rejects the listing with is_relevant false and no
scoring model runs; otherwise rule 2 sends to the machinery model when the
title matches the equipment vocabulary or the classifier reports a truthy
manufacturer inside the equipment details; rule 3 sends to the spot model
on a scrap/bullion title match or a non-zero estimated weight; rule 4
falls back to the collectible model. A machinery title keyword always wins
over a simultaneous scrap keyword. -/
theorem dispatch_first_match_wins (titleLower : String) (ai : AiVision) :
    (ai.is_correct_type = some false →
        analyze_olx_item_route titleLower ai = Route.rejected
        ∧ (∀ currentYear er ap fm p sp,
            analyze_olx_item currentYear er ap fm titleLower p ai sp = rejectedEnvelope)
        ∧ rejectedEnvelope.is_relevant = false)
    ∧ (ai.is_correct_type ≠ some false →
        analyze_olx_item_route titleLower ai =
          (if is_machinery_title titleLower || manufacturerTruthy ai then Route.machinery
           else if is_scrap_or_bullion_title titleLower || pyTruthyNum ai.estimated_weight then
             Route.spot
           else Route.collectible))
    ∧ (is_machinery_title titleLower = true → ai.is_correct_type ≠ some false →
        analyze_olx_item_route titleLower ai = Route.machinery) := by
  have hgetD : ai.is_correct_type ≠ some false → ai.is_correct_type.getD true = true := by
    intro h
    cases hh : ai.is_correct_type with
    | none => rfl
    | some b =>
      cases b with
      | false => exact absurd hh h
      | true => rfl
  refine ⟨?_, ?_, ?_⟩
  · intro h
    refine ⟨?_, ?_, rfl⟩
    · simp [analyze_olx_item_route, h]
    · intro currentYear er ap fm p sp
      simp [analyze_olx_item, analyze_olx_item_route, h]
  · intro h
    simp [analyze_olx_item_route, hgetD h]
  · intro hm h
    simp [analyze_olx_item_route, hgetD h, hm]

/-- Machinery details used in the C3 counterexample: a non-empty details
object whose manufacturer field is absent. -/
def machinery_details_c3 : MachineryDetails := { model := some "Haas VF2" }

/-- Classifier result of the C3 counterexample. -/
def ai_c3 : AiVision :=
  { is_correct_type := some true, machinery_details := some machinery_details_c3 }

/-- C3 (counterexample): a listing whose classifier equipment details are
non-empty (a model is reported) but whose manufacturer field is absent is
not routed to the equipment model as the claim states; with no matching
title keyword it falls through to the collectible model. -/
theorem dispatch_counterexample :
    machinery_details_c3 ≠ ({} : MachineryDetails)
    ∧ ai_c3.machinery_details = some machinery_details_c3
    ∧ analyze_olx_item_route "антикварна брошка" ai_c3 = Route.collectible
    ∧ analyze_olx_item_route "антикварна брошка" ai_c3 ≠ Route.machinery := by
  decide

/-- C3 (witness): a title carrying both a machinery keyword and a scrap
keyword is routed to the machinery model. -/
theorem dispatch_witness :
    analyze_olx_item_route "верстат золото лом 585" ({} : AiVision) = Route.machinery :=
  (dispatch_first_match_wins "верстат золото лом 585" {}).2.2 (by decide) (by decide)

/-- C6 (amended): when the listing price exceeds 5 times the naive implied
spot value, the adjusted weight used by the spot model is
max(1, raw weight / 10) - the tenth of the raw estimate floored at one
gram - and otherwise it is the raw estimated weight unchanged. -/
theorem spot_weight_heuristic (p : ℤ) (ai : AiVision) (sp : SpotPrices) :
    ((p : ℚ) > implied_spot_value ai sp * 5 →
        (analyze_spot p ai sp).estimated_weight_g
          = some (max 1 (estimated_weight_raw ai / 10)))
    ∧ (¬ ((p : ℚ) > implied_spot_value ai sp * 5) →
        (analyze_spot p ai sp).estimated_weight_g = some (estimated_weight_raw ai)) := by
  constructor
  · intro h
    show some (estimated_weight_g p ai sp) = _
    rw [estimated_weight_g, if_pos h]
  · intro h
    show some (estimated_weight_g p ai sp) = _
    rw [estimated_weight_g, if_neg h]

/-- Classifier result of the C6 counterexample and witness: gold, raw
estimated weight of 2 grams. -/
def ai_c6 : AiVision :=
  { refined_keywords := some ["золото"], estimated_weight := some 2 }

/-- Naive implied spot value of the C6 input: 2 grams of gold 585. -/
theorem implied_spot_value_c6 :
    implied_spot_value ai_c6 SPOT_PRICES_DEFAULT = 2 * 2850 := rfl

/-- C6 (witness): at price 30000 the heuristic of the amended claim fires
and the adjusted weight is max(1, raw / 10). -/
theorem spot_weight_heuristic_witness :
    (analyze_spot 30000 ai_c6 SPOT_PRICES_DEFAULT).estimated_weight_g
      = some (max 1 (estimated_weight_raw ai_c6 / 10)) :=
  (spot_weight_heuristic 30000 ai_c6 SPOT_PRICES_DEFAULT).1
    (by rw [implied_spot_value_c6]; norm_num)

/-- C6 (counterexample): with a raw estimate of 2 grams and a price of
30000 (above 5 times the implied spot value 5700), the adjusted weight the
model stores is 1 gram, not the claimed one tenth of the raw weight. -/
theorem spot_weight_counterexample :
    (30000 : ℚ) > implied_spot_value ai_c6 SPOT_PRICES_DEFAULT * 5
    ∧ (analyze_spot 30000 ai_c6 SPOT_PRICES_DEFAULT).estimated_weight_g = some 1
    ∧ (1 : ℚ) ≠ estimated_weight_raw ai_c6 / 10 := by
  have hgt : (30000 : ℚ) > implied_spot_value ai_c6 SPOT_PRICES_DEFAULT * 5 := by
    rw [implied_spot_value_c6]; norm_num
  have hraw : estimated_weight_raw ai_c6 = 2 := rfl
  refine ⟨hgt, ?_, ?_⟩
  · have hgt2 : ((30000 : ℤ) : ℚ) > implied_spot_value ai_c6 SPOT_PRICES_DEFAULT * 5 := by
      exact_mod_cast hgt
    show some (estimated_weight_g 30000 ai_c6 SPOT_PRICES_DEFAULT) = some 1
    rw [estimated_weight_g, if_pos hgt2, hraw]
    norm_num [max_eq_left]
  · rw [hraw]
    norm_num

/-! Listing fetch and dedup (fetch_olx_data and _fetch_single_query). -/

/-- One listing candidate as assembled by _fetch_single_query. -/
structure OlxListing where
  olx_id : String
  title : String
  price : ℤ
  url : String
  image_url : Option String := none
deriving DecidableEq, Repr

/-- One parsed result card before the per-item filters: the identifier is
none when the detail URL does not match the ID pattern. Cards without a
link tag are skipped by the source before this point and are not
represented. -/
structure RawCard where
  olx_id : Option String
  title : String
  price : ℤ
  url : String
  image_url : Option String := none
deriving DecidableEq, Repr

/-- Scan of one search term (_fetch_single_query): per card, skip when the
identifier is missing or already known, then skip when the extracted price
is below the configured floor, else keep the assembled listing. -/
def fetch_single_query (existing_ids : List String) (cards : List RawCard) : List OlxListing :=
  cards.filterMap (fun c =>
    c.olx_id.bind (fun id =>
      if id ∈ existing_ids then none
      else if c.price < OLX_PRICE_FILTER then none
      else some { olx_id := id, title := c.title, price := c.price,
                  url := c.url, image_url := c.image_url }))

/-- One step of the Python dict comprehension keyed by olx_id: an already
present key keeps its position but its value is overwritten
(last-write-wins); a new key is appended. -/
def dictInsert (acc : List OlxListing) (p : OlxListing) : List OlxListing :=
  if acc.any (fun q => q.olx_id == p.olx_id) then
    acc.map (fun q => if q.olx_id == p.olx_id then p else q)
  else acc ++ [p]

/-- Merge of all per-term results and dedup by identifier
(fetch_olx_data): the dict comprehension over the concatenated list. -/
def fetch_olx_data (existing_ids : List String) (cardLists : List (List RawCard)) :
    List OlxListing :=
  ((cardLists.map (fetch_single_query existing_ids)).flatten).foldl dictInsert []

/-- Elements produced by one dictInsert step come from the accumulator or
are the inserted element. -/
theorem mem_dictInsert (acc : List OlxListing) (p q : OlxListing)
    (h : q ∈ dictInsert acc p) : q ∈ acc ∨ q = p := by
  unfold dictInsert at h
  by_cases hc : acc.any (fun r => r.olx_id == p.olx_id) = true
  · rw [if_pos hc] at h
    obtain ⟨r, hr, hrq⟩ := List.mem_map.mp h
    by_cases hid : (r.olx_id == p.olx_id) = true
    · rw [if_pos hid] at hrq
      exact Or.inr hrq.symm
    · rw [if_neg hid] at hrq
      exact Or.inl (hrq ▸ hr)
  · rw [if_neg hc] at h
    rcases List.mem_append.mp h with h1 | h1
    · exact Or.inl h1
    · exact Or.inr (List.mem_singleton.mp h1)

/-- Elements of the dict fold come from the accumulator or the input. -/
theorem mem_foldl_dictInsert (l : List OlxListing) :
    ∀ (acc : List OlxListing) (q : OlxListing),
      q ∈ l.foldl dictInsert acc → q ∈ acc ∨ q ∈ l := by
  induction l with
  | nil => intro acc q h; exact Or.inl h
  | cons p rest ih =>
    intro acc q h
    rcases ih (dictInsert acc p) q h with h1 | h1
    · rcases mem_dictInsert acc p q h1 with h2 | h2
      · exact Or.inl h2
      · exact Or.inr (h2 ▸ List.mem_cons_self p rest)
    · exact Or.inr (List.mem_cons_of_mem p h1)

/-- C4 (amended): the fetch never fabricates listings. Every returned
listing is one of the per-term scan results, and when the merged result
set is empty the fetch returns the empty list; there is no synthetic
placeholder fallback and the listing record has no authenticity tag
field. -/
theorem fetch_no_fallback (existing_ids : List String) (cardLists : List (List RawCard)) :
    (∀ q, q ∈ fetch_olx_data existing_ids cardLists →
        q ∈ (cardLists.map (fetch_single_query existing_ids)).flatten)
    ∧ ((cardLists.map (fetch_single_query existing_ids)).flatten = [] →
        fetch_olx_data existing_ids cardLists = []) := by
  constructor
  · intro q h
    rcases mem_foldl_dictInsert _ [] q h with h1 | h1
    · exact absurd h1 (List.not_mem_nil q)
    · exact h1
  · intro h
    unfold fetch_olx_data
    rw [h]
    rfl

/-- C4 (counterexample): with every one of the nine configured search
terms scanning to an empty result list, the merged set is empty and the
fetch yields zero listings - no synthetic placeholders are generated. -/
theorem fetch_empty_counterexample :
    fetch_olx_data [] (List.replicate 9 []) = []
    ∧ (fetch_olx_data [] (List.replicate 9 [])).length = 0 := by
  decide

/-- Concrete card and listing of the C4 witness. -/
def card_c4 : RawCard := { olx_id := some "7", title := "t", price := 25000, url := "u" }

/-- Listing assembled from card_c4. -/
def listing_c4 : OlxListing := { olx_id := "7", title := "t", price := 25000, url := "u" }

/-- C4 (witness): the no-fabrication part applied to one concrete fetched
listing. -/
theorem fetch_no_fallback_witness :
    listing_c4 ∈ (([[card_c4]].map (fetch_single_query [])).flatten) :=
  (fetch_no_fallback [] [[card_c4]]).1 listing_c4 (by decide)

/-! Classifier retry loop (gemini_api_call). -/

/-- Outcome of one HTTP attempt against the classifier API. -/
inductive ApiOutcome (α : Type) where
  | success (v : α)
  | httpError (status : ℕ)
  | transportError
deriving DecidableEq, Repr

/-- Parsed result of one attempt: some on HTTP 200 with a parseable body,
none on a non-200 status or a raised exception. -/
def outcomeResult {α : Type} : ApiOutcome α → Option α
  | ApiOutcome.success v => some v
  | ApiOutcome.httpError _ => none
  | ApiOutcome.transportError => none

/-- Retry loop body of gemini_api_call: for each remaining attempt, return
the parsed result on success, otherwise sleep the current delay, double
it, and continue; the collected sleep delays are returned alongside. -/
def geminiAttempts {α : Type} (outcomes : ℕ → ApiOutcome α) :
    (remaining attempt delay : ℕ) → Option α × List ℕ
  | 0, _, _ => (none, [])
  | r + 1, attempt, delay =>
    match outcomeResult (outcomes attempt) with
    | some v => (some v, [])
    | none =>
      let p := geminiAttempts outcomes r (attempt + 1) (delay * 2)
      (p.1, delay :: p.2)

/-- gemini_api_call: without an API key no attempt is made; otherwise at
most max_retries = 3 attempts starting with delay 1, and none is
returned - never an exception - once every attempt has failed. -/
def gemini_api_call {α : Type} (hasKey : Bool) (outcomes : ℕ → ApiOutcome α) :
    Option α × List ℕ :=
  if hasKey then geminiAttempts outcomes 3 0 1 else (none, [])

/-- C5: a transport error or non-200 response is retried up to 3 attempts
in total with backoff delays doubling from 1 time unit; the call only
inspects the first three attempt outcomes, returns none (not an error)
with the sleep trace 1, 2, 4 when all three fail, and returns the parsed
value immediately on a first-attempt success. -/
theorem gemini_retry_and_backoff {α : Type} (f g : ℕ → ApiOutcome α) :
    ((∀ i, i < 3 → outcomeResult (f i) = none) →
        gemini_api_call true f = (none, [1, 2, 4]))
    ∧ ((∀ i, i < 3 → f i = g i) → gemini_api_call true f = gemini_api_call true g)
    ∧ (∀ v, f 0 = ApiOutcome.success v → gemini_api_call true f = (some v, [])) := by
  refine ⟨?_, ?_, ?_⟩
  · intro h
    have h0 := h 0 (by norm_num)
    have h1 := h 1 (by norm_num)
    have h2 := h 2 (by norm_num)
    simp [gemini_api_call, geminiAttempts, h0, h1, h2]
  · intro h
    have h0 := h 0 (by norm_num)
    have h1 := h 1 (by norm_num)
    have h2 := h 2 (by norm_num)
    simp [gemini_api_call, geminiAttempts, h0, h1, h2]
  · intro v hv
    simp [gemini_api_call, geminiAttempts, hv, outcomeResult]

/-- C5 (witness): three straight HTTP 500 responses produce no result and
the backoff trace 1, 2, 4. -/
theorem gemini_retry_witness :
    gemini_api_call true (fun _ => (ApiOutcome.httpError 500 : ApiOutcome ℕ))
      = (none, [1, 2, 4]) :=
  (gemini_retry_and_backoff (fun _ => (ApiOutcome.httpError 500 : ApiOutcome ℕ))
      (fun _ => ApiOutcome.httpError 500)).1 (fun _ _ => rfl)

/-! Monitoring cycle (monitoring_worker): persistence and publication. -/

/-- Listings store: olx_posts rows keyed by olx_id. -/
structure PostsDB where
  rows : List (String × Envelope)
deriving DecidableEq, Repr

/-- Keys of the store. -/
def dbKeys (db : PostsDB) : List String :=
  db.rows.map (fun r => r.1)

/-- Does the store hold a row for the identifier? -/
def PostsDB.hasId (db : PostsDB) (id : String) : Bool :=
  db.rows.any (fun r => r.1 == id)

/-- INSERT ... ON CONFLICT (olx_id) DO NOTHING: idempotent
insert-if-absent keyed by the identifier. -/
def insertIfAbsent (db : PostsDB) (id : String) (env : Envelope) : PostsDB :=
  if db.hasId id then db else { rows := db.rows ++ [(id, env)] }

/-- One listing of a polling cycle, with the envelope its analysis
produced (an analysis exception yields the degenerate error envelope
before this point) and the success flag of its send_olx_post call. -/
structure CycleItem where
  post : OlxListing
  analysis : Envelope
  publishOk : Bool
deriving DecidableEq, Repr

/-- Observable events of the cycle. -/
inductive PipelineEv where
  | persisted (id : String)
  | published (id : String) (ok : Bool)
deriving DecidableEq, Repr

/-- Identifier of an event. -/
def evId : PipelineEv → String
  | PipelineEv.persisted i => i
  | PipelineEv.published i _ => i

/-- Is the event a publication? -/
def isPublishEv : PipelineEv → Bool
  | PipelineEv.persisted _ => false
  | PipelineEv.published _ _ => true

/-- Events of one processed listing, in source order: the insert always
runs first; the publish happens only for a relevant envelope with a
configured channel. A failed publish is logged and never reattempted, so
at most one publish event exists per listing either way. -/
def postEvents (channel : Bool) (it : CycleItem) : List PipelineEv :=
  if it.analysis.is_relevant && channel then
    [PipelineEv.persisted it.post.olx_id, PipelineEv.published it.post.olx_id it.publishOk]
  else
    [PipelineEv.persisted it.post.olx_id]

/-- Event trace of one polling cycle over its listings, in order. -/
def cycleEvents (channel : Bool) : List CycleItem → List PipelineEv
  | [] => []
  | it :: rest => postEvents channel it ++ cycleEvents channel rest

/-- Listings store after one polling cycle. -/
def cycleDB (db : PostsDB) : List CycleItem → PostsDB
  | [] => db
  | it :: rest => cycleDB (insertIfAbsent db it.post.olx_id it.analysis) rest

/-- Every publication event of a cycle trace is preceded by a persistence
event for the same identifier. -/
theorem publish_preceded_by_persist (channel : Bool) :
    ∀ (items : List CycleItem) (j : ℕ) (id : String) (ok : Bool),
      (cycleEvents channel items)[j]? = some (PipelineEv.published id ok) →
      PipelineEv.persisted id ∈ (cycleEvents channel items).take j := by
  intro items
  induction items with
  | nil => intro j id ok h; simp [cycleEvents] at h
  | cons it rest ih =>
    intro j id ok h
    by_cases hc : (it.analysis.is_relevant && channel) = true
    · rw [cycleEvents, postEvents, if_pos hc] at h ⊢
      rcases j with _ | _ | n
      · simp at h
      · simp only [List.cons_append, List.getElem?_cons_succ, List.getElem?_cons_zero] at h
        have hid : it.post.olx_id = id := by
          injection h with h1
          injection h1 with h2 h3
        simp [List.take_succ_cons, List.take_zero, hid]
      · simp only [List.cons_append, List.getElem?_cons_succ, List.nil_append] at h
        have hmem := ih n id ok h
        simp only [List.cons_append, List.take_succ_cons, List.nil_append]
        exact List.mem_cons_of_mem _ (List.mem_cons_of_mem _ hmem)
    · rw [cycleEvents, postEvents, if_neg hc] at h ⊢
      rcases j with _ | n
      · simp at h
      · simp only [List.cons_append, List.getElem?_cons_succ, List.nil_append] at h
        have hmem := ih n id ok h
        simp only [List.cons_append, List.take_succ_cons, List.nil_append]
        exact List.mem_cons_of_mem _ hmem

/-- The insert leaves the store holding the inserted identifier. -/
theorem hasId_insertIfAbsent_self (db : PostsDB) (id : String) (env : Envelope) :
    (insertIfAbsent db id env).hasId id = true := by
  unfold insertIfAbsent
  by_cases h : db.hasId id
  · rw [if_pos h]; exact h
  · rw [if_neg h]
    simp [PostsDB.hasId]

/-- The insert preserves every identifier already held. -/
theorem hasId_insertIfAbsent_mono (db : PostsDB) (i id : String) (env : Envelope)
    (h : db.hasId i = true) : (insertIfAbsent db id env).hasId i = true := by
  unfold insertIfAbsent
  by_cases hc : db.hasId id
  · rw [if_pos hc]; exact h
  · rw [if_neg hc]
    simp only [PostsDB.hasId, List.any_append, List.any_cons, List.any_nil, Bool.or_false,
      Bool.or_eq_true]
    exact Or.inl h

/-- A held identifier is still held after the whole cycle. -/
theorem cycleDB_hasId_mono :
    ∀ (items : List CycleItem) (db : PostsDB) (i : String),
      db.hasId i = true → (cycleDB db items).hasId i = true := by
  intro items
  induction items with
  | nil => intro db i h; exact h
  | cons it rest ih =>
    intro db i h
    exact ih _ i (hasId_insertIfAbsent_mono db i it.post.olx_id it.analysis h)

/-- Every processed listing of a cycle is held by the store afterwards. -/
theorem cycleDB_has_processed :
    ∀ (items : List CycleItem) (db : PostsDB) (it : CycleItem),
      it ∈ items → (cycleDB db items).hasId it.post.olx_id = true := by
  intro items
  induction items with
  | nil => intro db it h; exact absurd h (List.not_mem_nil it)
  | cons x rest ih =>
    intro db it h
    rcases List.mem_cons.mp h with h1 | h1
    · subst h1
      exact cycleDB_hasId_mono rest _ _
        (hasId_insertIfAbsent_self db it.post.olx_id it.analysis)
    · exact ih _ it h1

/-- The final store of a cycle does not depend on the publish outcomes. -/
theorem cycleDB_publishOk_irrelevant :
    ∀ (items : List CycleItem) (db : PostsDB),
      cycleDB db (items.map (fun it => { it with publishOk := true })) = cycleDB db items := by
  intro items
  induction items with
  | nil => intro db; rfl
  | cons it rest ih =>
    intro db
    exact ih _

/-- Each processed listing produces at most one publication event. -/
theorem postEvents_publish_count (channel : Bool) (it : CycleItem) :
    (postEvents channel it).countP isPublishEv ≤ 1 := by
  unfold postEvents
  by_cases hc : (it.analysis.is_relevant && channel) = true
  · rw [if_pos hc]
    simp [isPublishEv, List.countP_cons, List.countP_nil]
  · rw [if_neg hc]
    simp [isPublishEv, List.countP_cons, List.countP_nil]

/-- C7: within one polling cycle each listing is persisted before or
together with being published, never after - every publication event in
the cycle trace is preceded by the persistence event of the same
identifier; every processed listing ends up held by the store whatever its
publish outcome, the final store is independent of publish failures, and a
failed publication is never reattempted (at most one publication event per
listing). -/
theorem persist_before_publish (channel : Bool) (db : PostsDB) (items : List CycleItem) :
    (∀ (j : ℕ) (id : String) (ok : Bool),
        (cycleEvents channel items)[j]? = some (PipelineEv.published id ok) →
        PipelineEv.persisted id ∈ (cycleEvents channel items).take j)
    ∧ (∀ it, it ∈ items → (cycleDB db items).hasId it.post.olx_id = true)
    ∧ cycleDB db (items.map (fun it => { it with publishOk := true })) = cycleDB db items
    ∧ (∀ it, it ∈ items → (postEvents channel it).countP isPublishEv ≤ 1) := by
  refine ⟨publish_preceded_by_persist channel items, ?_, ?_, ?_⟩
  · intro it h
    exact cycleDB_has_processed items db it h
  · exact cycleDB_publishOk_irrelevant items db
  · intro it _
    exact postEvents_publish_count channel it

/-- Relevant envelope of the C7 witness. -/
def env_c7 : Envelope := { is_relevant := true, modelTag := ModelTag.collectible }

/-- Single cycle item of the C7 witness: relevant listing whose
publication fails. -/
def items_c7 : List CycleItem :=
  [{ post := { olx_id := "1", title := "t", price := 25000, url := "u" },
     analysis := env_c7, publishOk := false }]

/-- C7 (witness): in the concrete one-listing cycle with a failed publish,
the publication event at index 1 is preceded by the persistence event. -/
theorem persist_before_publish_witness :
    PipelineEv.persisted "1" ∈ (cycleEvents true items_c7).take 1 :=
  (persist_before_publish true { rows := [] } items_c7).1 1 "1" false rfl

/-- The idempotent insert preserves distinctness of the stored keys. -/
theorem nodup_insertIfAbsent (db : PostsDB) (id : String) (env : Envelope)
    (h : (dbKeys db).Nodup) : (dbKeys (insertIfAbsent db id env)).Nodup := by
  unfold insertIfAbsent
  by_cases hc : db.hasId id
  · rw [if_pos hc]; exact h
  · rw [if_neg hc]
    have hnot : id ∉ dbKeys db := by
      intro hmem
      apply hc
      simp only [PostsDB.hasId, List.any_eq_true]
      obtain ⟨r, hr, hrid⟩ := List.mem_map.mp hmem
      exact ⟨r, hr, by simp [hrid]⟩
    show (dbKeys { rows := db.rows ++ [(id, env)] }).Nodup
    simp only [dbKeys, List.map_append, List.map_cons, List.map_nil]
    rw [List.nodup_append]
    refine ⟨h, List.nodup_singleton id, ?_⟩
    intro a ha hb
    rw [List.mem_singleton] at hb
    subst hb
    exact hnot ha

/-- A listing returned by a single-term scan is never one of the excluded
identifiers. -/
theorem fetch_single_query_excludes (existing : List String) (cards : List RawCard)
    (l : OlxListing) (h : l ∈ fetch_single_query existing cards) :
    l.olx_id ∉ existing := by
  unfold fetch_single_query at h
  obtain ⟨c, hc, hcl⟩ := List.mem_filterMap.mp h
  rcases hid : c.olx_id with _ | id
  · rw [hid, Option.none_bind] at hcl
    exact absurd hcl (by simp)
  · rw [hid, Option.some_bind] at hcl
    by_cases hmem : id ∈ existing
    · rw [if_pos hmem] at hcl
      exact absurd hcl (by simp)
    · rw [if_neg hmem] at hcl
      by_cases hpr : c.price < OLX_PRICE_FILTER
      · rw [if_pos hpr] at hcl
        exact absurd hcl (by simp)
      · rw [if_neg hpr] at hcl
        have hl : l.olx_id = id := by
          have := Option.some.inj hcl
          rw [← this]
        rw [hl]
        exact hmem

/-- Every merged fetch result avoids the excluded identifiers. -/
theorem fetch_olx_data_excludes (existing : List String) (cardLists : List (List RawCard))
    (l : OlxListing) (h : l ∈ fetch_olx_data existing cardLists) :
    l.olx_id ∉ existing := by
  rcases mem_foldl_dictInsert _ [] l h with h1 | h1
  · exact absurd h1 (List.not_mem_nil l)
  · obtain ⟨lst, hlst, hl⟩ := List.mem_flatten.mp h1
    obtain ⟨cards, hcards, hfq⟩ := List.mem_map.mp hlst
    exact fetch_single_query_excludes existing cards l (hfq ▸ hl)

/-- Every event of a cycle trace carries the identifier of one of the
processed listings. -/
theorem evId_mem_cycle (channel : Bool) :
    ∀ (items : List CycleItem) (ev : PipelineEv),
      ev ∈ cycleEvents channel items → ∃ it, it ∈ items ∧ evId ev = it.post.olx_id := by
  intro items
  induction items with
  | nil => intro ev h; simp [cycleEvents] at h
  | cons it rest ih =>
    intro ev h
    rw [cycleEvents] at h
    rcases List.mem_append.mp h with h1 | h1
    · refine ⟨it, List.mem_cons_self it rest, ?_⟩
      unfold postEvents at h1
      by_cases hc : (it.analysis.is_relevant && channel) = true
      · rw [if_pos hc] at h1
        rcases List.mem_cons.mp h1 with h2 | h2
        · subst h2; rfl
        · rw [List.mem_singleton] at h2; subst h2; rfl
      · rw [if_neg hc] at h1
        rw [List.mem_singleton] at h1; subst h1; rfl
    · obtain ⟨x, hx, he⟩ := ih ev h1
      exact ⟨x, List.mem_cons_of_mem it hx, he⟩

/-- C8: the store insert is idempotent insert-if-absent keyed by the
identifier, so distinct keys stay distinct and every identifier has at
most one persisted row; a candidate whose identifier is already persisted
is dropped by the exclude set during fetching, and a cycle built from the
fetch result therefore never scores or publishes an already persisted
identifier again. -/
theorem dedup_at_most_once :
    (∀ (db : PostsDB) (id : String) (env : Envelope),
        (dbKeys db).Nodup → (dbKeys (insertIfAbsent db id env)).Nodup)
    ∧ (∀ (db : PostsDB) (id : String),
        (dbKeys db).Nodup → (dbKeys db).count id ≤ 1)
    ∧ (∀ (existing : List String) (cards : List RawCard) (l : OlxListing),
        l ∈ fetch_single_query existing cards → l.olx_id ∉ existing)
    ∧ (∀ (existing : List String) (cardLists : List (List RawCard)) (channel : Bool)
        (items : List CycleItem),
        (∀ it, it ∈ items → it.post ∈ fetch_olx_data existing cardLists) →
        ∀ id, id ∈ existing → ∀ ev, ev ∈ cycleEvents channel items → evId ev ≠ id) := by
  refine ⟨nodup_insertIfAbsent, ?_, fetch_single_query_excludes, ?_⟩
  · intro db id h
    exact List.nodup_iff_count_le_one.mp h id
  · intro existing cardLists channel items hitems id hid ev hev
    obtain ⟨it, hit, he⟩ := evId_mem_cycle channel items ev hev
    intro hcontra
    have h1 : it.post.olx_id = id := by rw [← he, hcontra]
    have h2 := fetch_olx_data_excludes existing cardLists it.post (hitems it hit)
    rw [h1] at h2
    exact h2 hid

/-- Concrete card of the C8 witness. -/
def card_c8 : RawCard := { olx_id := some "7", title := "t", price := 25000, url := "u" }

/-- Concrete listing of the C8 witness. -/
def listing_c8 : OlxListing := { olx_id := "7", title := "t", price := 25000, url := "u" }

/-- C8 (witness): a concrete scanned listing is not among the excluded
identifiers. -/
theorem dedup_at_most_once_witness : listing_c8.olx_id ∉ (["5"] : List String) :=
  dedup_at_most_once.2.2.1 ["5"] [card_c8] listing_c8 (by decide)
